import Mathlib

/-
Verification development for git-bin (cisco-sas/git-bin, src/git-bin.py).

The single source file defines FilesystemBinstore (the content-addressed
side store) and GitBin (the per-path command logic for add / reset /
checkout_dashdash), plus the argparse surface and main.  The imported
modules utils, commands and git are collaborators that are not part of the
source file; their observable behaviour is represented by oracle
structures, and the named constants and pipeline semantics they provide
are modelled from the spec where the claims need them.

Stateful behaviour is embedded in state-passing style: each operation
returns the successor state (where it has one) together with the ordered
list of effect events it executes.  Quote characters inside printed
messages are elided from the message strings.
-/

namespace GitBinSpec

/-- Modelled from the spec: the commands module (StepPipeline) is not in
the source file.  A CompoundCommand executes its atomic steps strictly in
order, so every pipeline is embedded as the ordered list of effect events
it performs.  The events also cover the Repository calls, the status
queries and the print statements appearing in git-bin.py. -/
inductive Event where
  | queryStatus (f : String) (st : Nat)
  | printMsg (s : String)
  | repoAdd (f : String)
  | unstageEv (f : String)
  | restoreEv (f : String)
  | copyFile (src dst : String)
  | moveFile (src dst : String)
  | linkToFile (linkPath target : String)
  | chmodEv (perms : Nat) (f : String)
  | mkdirEv (p : String)
  | configSet (sec key val : String)
  | recurseDir (f : String)
  | binstoreAddFile (f : String)
  | dispatched (c : String)
deriving DecidableEq

/-- Events that mutate the filesystem or the Repository index (directory
creation, link creation, move, copy, chmod, config writes, staging,
unstaging, restoring, store insertion).  Status queries, prints,
recursion markers and the dispatch marker observe only. -/
def isMutation : Event → Bool
  | .queryStatus _ _ => false
  | .printMsg _ => false
  | .recurseDir _ => false
  | .dispatched _ => false
  | _ => true

/-- A list of events containing no mutation. -/
def mutationFree (l : List Event) : Bool :=
  l.all (fun e => !isMutation e)

/-- Python str.startswith (and the posix semantics used by git-bin),
computed on the underlying character lists. -/
def strStartsWith (s p : String) : Bool :=
  p.data.isPrefixOf s.data

/-- Posix os.path.join for the two-argument uses in git-bin.py: an
absolute second component discards the first. -/
def pathJoin (a b : String) : String :=
  if strStartsWith b "/" then b else a ++ "/" ++ b

/-- Modelled from the spec: the git module is not in the source file.
FileStatus is a bitmask over four independent axes; bit for untracked. -/
def STATUS_UNTRACKED : Nat := 1

/-- Modelled from the spec: bit for staged. -/
def STATUS_STAGED : Nat := 2

/-- Modelled from the spec: bit for modified. -/
def STATUS_MODIFIED : Nat := 4

/-- Modelled from the spec: bit for type-changed. -/
def STATUS_TYPECHANGED : Nat := 8

/-- Modelled from the spec: mask isolating the staged bit; a path is fully
staged when status masked by it equals STATUS_STAGED. -/
def STATUS_STAGED_MASK : Nat := 2

/-- Modelled from the spec: a path has changed when any of the modified /
type-changed / untracked bits is set. -/
def STATUS_CHANGED_MASK : Nat :=
  STATUS_UNTRACKED ||| STATUS_MODIFIED ||| STATUS_TYPECHANGED

/-- stat.S_IRUSR. -/
def S_IRUSR : Nat := 0o400

/-- stat.S_IRGRP. -/
def S_IRGRP : Nat := 0o40

/-- stat.S_IROTH. -/
def S_IROTH : Nat := 0o4

/-- stat.S_IWUSR. -/
def S_IWUSR : Nat := 0o200

/-- stat.S_IWGRP. -/
def S_IWGRP : Nat := 0o20

/-- stat.S_IWOTH. -/
def S_IWOTH : Nat := 0o2

/-- The permission bits FilesystemBinstore.add_file passes to
ChmodCommand: read-only for owner, group and other. -/
def binstorePerms : Nat := S_IRUSR ||| S_IRGRP ||| S_IROTH

/-- Modelled from the spec: observations the os module makes about a
path (os.path.exists, os.path.islink, os.readlink, os.path.isdir). -/
structure OsOracle where
  pathExists : String → Bool
  islink : String → Bool
  readlink : String → String
  isdir : String → Bool

/-- Modelled from the spec: the utils module is not in the source file;
it provides the binary-content sniff and the md5 digest of a file. -/
structure UtilsOracle where
  isFileBinary : String → Bool
  md5file : String → String

/-- Modelled from the spec: the binstore membership and resolution
methods called by git-bin.py (has, has_file, get_binstore_filename,
digest) are not defined in the source file; the spec names them
containsDigest, containsPath and resolveStorePath. -/
structure BinOracle where
  hasFile : String → Bool
  has : String → Bool
  getBinstoreFilename : String → String
  digest : String → String

/-- Modelled from the spec: the Repository collaborator (the git module),
with an abstract repository state of type rho: status query, unstage and
restore.  Staging (gitrepo.add) is recorded as a repoAdd event. -/
structure RepoOracle (ρ : Type) where
  status : ρ → String → Nat
  unstage : ρ → String → ρ
  restore : ρ → String → ρ

/-- The configuration an instantiated FilesystemBinstore carries:
self.path (the configured store root) and self.localpath (the
repository-private .git/binstore alias). -/
structure BinstoreCfg where
  path : String
  localpath : String
deriving DecidableEq

/-- The git configuration entries git-bin reads: binstore.path and
git-bin.binstorebase. -/
structure GitConfig where
  binstorePath : Option String
  binstoreBase : Option String

/-- The gitrepo fields FilesystemBinstore uses: repository root path,
repository name, configuration. -/
structure Repo0 where
  path : String
  reponame : String
  config : GitConfig

/-- The error taxonomy of the spec: ConfigurationError for the missing
binstorebase raise in FilesystemBinstore.init, UnknownCommandError for
UnknownCommandException, usageError for argparse rejecting the command
name before main runs. -/
inductive GBError where
  | configurationError (msg : String)
  | unknownCommand (msg : String)
  | usageError (msg : String)
deriving DecidableEq

/-- Python truthiness of an optional configuration string: None and the
empty string are falsy. -/
def truthy : Option String → Bool
  | none => false
  | some s => s != ""

/-- self.localpath = os.path.join(self.gitrepo.path, ".git", "binstore"). -/
def binstoreLocalpath (r : Repo0) : String :=
  pathJoin (pathJoin r.path ".git") "binstore"

/-- The message of the raise in FilesystemBinstore.init. -/
def cfgErrMsg : String :=
  "No git-bin.binstorebase is specified. You probably want to add this to your ~/.gitconfig"

/-- FilesystemBinstore.init: reads git-bin.binstorebase (raising when it
is falsy), computes path = binstorebase/reponame, executes the pipeline
MakeDirectory(path); LinkToFile(localpath, path), then writes
binstore.path into the configuration. -/
def filesystemBinstoreInit (r : Repo0) : Except GBError (BinstoreCfg × List Event) :=
  if truthy r.config.binstoreBase then
    Except.ok
      ({ path := pathJoin (r.config.binstoreBase.getD "") r.reponame,
         localpath := binstoreLocalpath r },
       [Event.mkdirEv (pathJoin (r.config.binstoreBase.getD "") r.reponame),
        Event.linkToFile (binstoreLocalpath r)
          (pathJoin (r.config.binstoreBase.getD "") r.reponame),
        Event.configSet "binstore" "path"
          (pathJoin (r.config.binstoreBase.getD "") r.reponame)])
  else
    Except.error (GBError.configurationError cfgErrMsg)

/-- FilesystemBinstore.__init__: sets localpath, reads binstore.path from
the configuration, and calls init() only when that value is falsy. -/
def filesystemBinstoreMk (r : Repo0) : Except GBError (BinstoreCfg × List Event) :=
  if truthy r.config.binstorePath then
    Except.ok
      ({ path := r.config.binstorePath.getD "",
         localpath := binstoreLocalpath r }, [])
  else
    filesystemBinstoreInit r

/-- FilesystemBinstore.add_file: digest = md5(file bytes),
binstore_filename = os.path.join(self.localpath, digest), then the
pipeline SafeMoveFile(filename, binstore_filename);
LinkToFile(filename, binstore_filename);
Chmod(S_IRUSR|S_IRGRP|S_IROTH, binstore_filename);
GitAdd(gitrepo, filename), executed in order. -/
def add_file (U : UtilsOracle) (cfg : BinstoreCfg) (f : String) : List Event :=
  [Event.moveFile f (pathJoin cfg.localpath (U.md5file f)),
   Event.linkToFile f (pathJoin cfg.localpath (U.md5file f)),
   Event.chmodEv binstorePerms (pathJoin cfg.localpath (U.md5file f)),
   Event.repoAdd f]

/-- FilesystemBinstore.is_binstore_link: False unless the path is a
symlink; True when the link target starts with self.path (the configured
store root) and has_file accepts the target; False otherwise. -/
def is_binstore_link (os : OsOracle) (B : BinOracle) (cfg : BinstoreCfg)
    (f : String) : Bool :=
  if !(os.islink f) then false
  else if strStartsWith (os.readlink f) cfg.path && B.hasFile (os.readlink f) then
    true
  else false

/-- Message printed by GitBin.add for a non-existing path (quote marks
elided). -/
def noMatchMsg (f : String) : String :=
  f ++ " did not match any files"

/-- GitBin.add, body of the per-filename loop.  The loop first prints the
filename, then takes the first applicable branch: missing path; plain
symlink whose target is not in the binstore (the branch only prints the
marker islink: DO_GIT_ADD); non-binary content handed to gitrepo.add;
already a binstore link (nothing to do); directory (the os.walk recursion
into it is represented by a recurseDir event); otherwise
binstore.add_file, represented by a binstoreAddFile event. -/
def addOne (os : OsOracle) (U : UtilsOracle) (B : BinOracle) (cfg : BinstoreCfg)
    (f : String) : List Event :=
  Event.printMsg ("\t" ++ f) ::
  (if !(os.pathExists f) then [Event.printMsg (noMatchMsg f)]
   else if os.islink f && !(B.hasFile (os.readlink f)) then
     [Event.printMsg "islink: DO_GIT_ADD"]
   else if !(U.isFileBinary f) then [Event.repoAdd f]
   else if is_binstore_link os B cfg f then []
   else if os.isdir f then
     [Event.printMsg ("\trecursing into " ++ f), Event.recurseDir f]
   else [Event.binstoreAddFile f])

/-- The guard status & git.STATUS_STAGED_MASK == git.STATUS_STAGED. -/
def stagedGuard (st : Nat) : Bool :=
  (st &&& STATUS_STAGED_MASK) == STATUS_STAGED

/-- The status condition under which GitBin.reset acts on a path. -/
def resetAccepts (st : Nat) : Bool :=
  stagedGuard st

/-- The status condition under which GitBin.checkout_dashdash passes its
first guard (it skips fully staged paths). -/
def checkoutAccepts (st : Nat) : Bool :=
  !stagedGuard st

/-- Hint printed by GitBin.reset for an unstaged path. -/
def resetHint (f : String) : String :=
  "you probably meant to do: git bin checkout -- " ++ f

/-- Hint printed by GitBin.checkout_dashdash for a staged path. -/
def checkoutHint (f : String) : String :=
  "you probably meant to do: git bin reset " ++ f

/-- The copy-back condition of GitBin.reset: binstore.has(filename) and
(new_status & STATUS_UNTRACKED or new_status & STATUS_MODIFIED). -/
def copyBackCond (B : BinOracle) (f : String) (st2 : Nat) : Bool :=
  B.has f && (((st2 &&& STATUS_UNTRACKED) != 0) || ((st2 &&& STATUS_MODIFIED) != 0))

/-- GitBin.reset, body of the per-filename loop: query the status; skip
(with a hint) unless fully staged; unstage; re-query the status; when the
copy-back condition holds on the fresh status, copy the binstore file
back over the working path. -/
def resetOne {ρ : Type} (O : RepoOracle ρ) (B : BinOracle) (r : ρ) (f : String) :
    ρ × List Event :=
  if !stagedGuard (O.status r f) then
    (r, [Event.queryStatus f (O.status r f), Event.printMsg (resetHint f)])
  else if copyBackCond B f (O.status (O.unstage r f) f) then
    (O.unstage r f,
     [Event.queryStatus f (O.status r f), Event.unstageEv f,
      Event.queryStatus f (O.status (O.unstage r f) f),
      Event.copyFile (B.getBinstoreFilename f) f])
  else
    (O.unstage r f,
     [Event.queryStatus f (O.status r f), Event.unstageEv f,
      Event.queryStatus f (O.status (O.unstage r f) f)])

/-- The just-in-case backup condition of GitBin.checkout_dashdash:
status & STATUS_TYPECHANGED and not binstore.has(filename). -/
def justincaseCond (B : BinOracle) (f : String) (st : Nat) : Bool :=
  ((st &&& STATUS_TYPECHANGED) != 0) && !(B.has f)

/-- os.path.join("/tmp", filename.digest.justincase), the backup name
built by GitBin.checkout_dashdash. -/
def justincaseName (f d : String) : String :=
  pathJoin "/tmp" (f ++ "." ++ d ++ ".justincase")

/-- GitBin.checkout_dashdash, body of the per-filename loop: query the
status; skip (with a hint) when fully staged; skip when no changed bit is
set; when the type changed and the binstore lacks the file, copy the
resolved binstore file to the just-in-case name; finally restore the path
via the Repository. -/
def checkoutOne {ρ : Type} (O : RepoOracle ρ) (B : BinOracle) (r : ρ)
    (f : String) : ρ × List Event :=
  if stagedGuard (O.status r f) then
    (r, [Event.queryStatus f (O.status r f), Event.printMsg (checkoutHint f)])
  else if (O.status r f &&& STATUS_CHANGED_MASK) == 0 then
    (r, [Event.queryStatus f (O.status r f)])
  else if justincaseCond B f (O.status r f) then
    (O.restore r f,
     [Event.queryStatus f (O.status r f),
      Event.copyFile (B.getBinstoreFilename f)
        (justincaseName f (B.digest f)),
      Event.restoreEv f])
  else
    (O.restore r f,
     [Event.queryStatus f (O.status r f), Event.restoreEv f])

/-- The closed command set of build_options_parser (argparse choices). -/
def parserChoices : List String :=
  ["add", "edit", "reset", "checkout_dashdash"]

/-- The attribute names a GitBin instance has (methods of the class and
the fields assigned in __init__); hasattr(self, name) tests membership.
Inherited object attributes are omitted: none of them collides with a
parser choice. -/
def gitbinAttrs : List String :=
  ["dispatch_command", "add", "reset", "checkout_dashdash", "gitrepo", "binstore"]

/-- GitBin.dispatch_command: raises UnknownCommandException when the
instance has no attribute named by the command (quote marks elided from
the message); otherwise dispatches. -/
def dispatchCommand (name : String) : Option GBError :=
  if !(gitbinAttrs.contains name) then
    some (GBError.unknownCommand ("The command " ++ name ++ " is not known to git-bin"))
  else none

/-- The program entry: argparse rejects command names outside
parserChoices before main runs (no events); otherwise main constructs
FilesystemBinstore (whose __init__ may run init and mutate), then
dispatch_command validates the name; a successful dispatch is represented
by a dispatched marker event. -/
def runMain (r : Repo0) (c : String) : List Event × Option GBError :=
  if !(parserChoices.contains c) then
    ([], some (GBError.usageError ("argument command: invalid choice: " ++ c)))
  else
    match filesystemBinstoreMk r with
    | Except.error e => ([], some e)
    | Except.ok (_, evs) =>
      match dispatchCommand c with
      | some e => (evs, some e)
      | none => (evs ++ [Event.dispatched c], none)

/-- is_binstore_link computed as one boolean conjunction (helper shared by
the developments below). -/
theorem is_binstore_link_eq (os : OsOracle) (B : BinOracle) (cfg : BinstoreCfg)
    (f : String) :
    is_binstore_link os B cfg f =
      (os.islink f &&
        (strStartsWith (os.readlink f) cfg.path && B.hasFile (os.readlink f))) := by
  unfold is_binstore_link
  cases h1 : os.islink f <;>
    cases h2 : strStartsWith (os.readlink f) cfg.path <;>
      cases h3 : B.hasFile (os.readlink f) <;> simp [h1, h2, h3]

/-- A status with the type-changed bit set also passes the changed-mask
guard (helper shared by the developments below). -/
theorem changed_of_typechanged (st : Nat)
    (h : ((st &&& STATUS_TYPECHANGED) != 0) = true) :
    ((st &&& STATUS_CHANGED_MASK) == 0) = false := by
  have hb : st &&& 8 ≠ 0 := by
    simpa [STATUS_TYPECHANGED] using h
  have hmask : STATUS_CHANGED_MASK = 13 := by decide
  rw [hmask]
  simp only [beq_eq_false_iff_ne, ne_eq]
  intro hc
  apply hb
  have h8 : (13 &&& 8 : Nat) = 8 := by decide
  calc st &&& 8 = st &&& (13 &&& 8) := by rw [h8]
    _ = st &&& 13 &&& 8 := by rw [Nat.and_assoc]
    _ = 0 &&& 8 := by rw [hc]
    _ = 0 := by rw [Nat.zero_and]

/-- C8: is_binstore_link(path) returns true if and only if the path is a
symbolic link, its target string is prefixed by the store root, and the
target is a member of the store (has_file accepts it); in particular a
symlink pointing outside the store, or at a non-member path under the
store root, returns false. -/
theorem C8_is_binstore_link_characterisation (os : OsOracle) (B : BinOracle)
    (cfg : BinstoreCfg) (f : String) :
    is_binstore_link os B cfg f = true ↔
      (os.islink f = true ∧ strStartsWith (os.readlink f) cfg.path = true ∧
       B.hasFile (os.readlink f) = true) := by
  rw [is_binstore_link_eq]
  simp [Bool.and_eq_true, and_assoc]

/-- C9: constructing the store fails with ConfigurationError when neither
binstore.path nor git-bin.binstorebase is usably configured, and is
idempotent: when binstore.path is already set, no directory, link or
configuration write happens (the event list is empty). -/
theorem C9_init_configuration (r : Repo0) :
    (truthy r.config.binstorePath = true →
      filesystemBinstoreMk r =
        Except.ok ({ path := r.config.binstorePath.getD "",
                     localpath := binstoreLocalpath r }, [])) ∧
    (truthy r.config.binstorePath = false → truthy r.config.binstoreBase = false →
      filesystemBinstoreMk r = Except.error (GBError.configurationError cfgErrMsg)) := by
  constructor
  · intro h
    simp [filesystemBinstoreMk, h]
  · intro h1 h2
    simp [filesystemBinstoreMk, filesystemBinstoreInit, h1, h2]

/-- Repository whose configuration already holds a store path. -/
def C9r1 : Repo0 :=
  { path := "/r", reponame := "repo",
    config := { binstorePath := some "/store/repo", binstoreBase := none } }

/-- Repository with no store path and no binstorebase configured. -/
def C9r0 : Repo0 :=
  { path := "/r", reponame := "repo",
    config := { binstorePath := none, binstoreBase := none } }

/-- Witness for C9 at two concrete repositories. -/
theorem C9_witness :
    truthy C9r1.config.binstorePath = true ∧
    filesystemBinstoreMk C9r1 =
      Except.ok ({ path := C9r1.config.binstorePath.getD "",
                   localpath := binstoreLocalpath C9r1 }, []) ∧
    truthy C9r0.config.binstorePath = false ∧
    truthy C9r0.config.binstoreBase = false ∧
    filesystemBinstoreMk C9r0 = Except.error (GBError.configurationError cfgErrMsg) :=
  ⟨by decide, (C9_init_configuration C9r1).1 (by decide), by decide, by decide,
   (C9_init_configuration C9r0).2 (by decide) (by decide)⟩

/-- C2: reset performs no mutation (state unchanged, no mutating event)
on a path whose queried status is not staged; checkout_dashdash performs
no mutation on a path whose queried status is fully staged; and the two
acceptance conditions are disjoint. -/
theorem C2_guards_disjoint {ρ : Type} (O : RepoOracle ρ) (B : BinOracle)
    (r : ρ) (f : String) :
    (resetAccepts (O.status r f) = false →
      (resetOne O B r f).1 = r ∧ mutationFree (resetOne O B r f).2 = true) ∧
    (checkoutAccepts (O.status r f) = false →
      (checkoutOne O B r f).1 = r ∧ mutationFree (checkoutOne O B r f).2 = true) ∧
    (∀ st : Nat, (resetAccepts st && checkoutAccepts st) = false) := by
  refine ⟨?_, ?_, ?_⟩
  · intro h
    have h' : stagedGuard (O.status r f) = false := h
    simp [resetOne, h', mutationFree, isMutation]
  · intro h
    have h' : stagedGuard (O.status r f) = true := by
      have hh : (!stagedGuard (O.status r f)) = false := h
      simpa using hh
    simp [checkoutOne, h', mutationFree, isMutation]
  · intro st
    unfold resetAccepts checkoutAccepts
    cases stagedGuard st <;> simp

/-- Repository oracle for the C2 witness: path b is fully staged, path a
is not. -/
def C2O : RepoOracle Nat :=
  { status := fun _ f => if f == "b" then STATUS_STAGED else 0,
    unstage := fun r _ => r + 1,
    restore := fun r _ => r + 1 }

/-- Binstore oracle for the C2 witness. -/
def C2B : BinOracle :=
  { hasFile := fun _ => false, has := fun _ => false,
    getBinstoreFilename := fun f => "store/" ++ f,
    digest := fun _ => "d2" }

/-- Witness for C2 at a concrete oracle: an unstaged path for reset, a
staged path for checkout_dashdash. -/
theorem C2_witness :
    resetAccepts (C2O.status 0 "a") = false ∧
    ((resetOne C2O C2B 0 "a").1 = 0 ∧
     mutationFree (resetOne C2O C2B 0 "a").2 = true) ∧
    checkoutAccepts (C2O.status 0 "b") = false ∧
    ((checkoutOne C2O C2B 0 "b").1 = 0 ∧
     mutationFree (checkoutOne C2O C2B 0 "b").2 = true) :=
  ⟨by decide, (C2_guards_disjoint C2O C2B 0 "a").1 (by decide),
   by decide, (C2_guards_disjoint C2O C2B 0 "b").2.1 (by decide)⟩

/-- C3: on a staged path, reset unstages via the Repository and then
re-queries the status; the trace is exactly query, unstage, fresh query,
then a copy of the binstore file back over the working path exactly when
the copy-back condition holds of the freshly queried status, which is
binstore membership together with the untracked or modified bit of the
post-unstage status. -/
theorem C3_reset_uses_fresh_status {ρ : Type} (O : RepoOracle ρ) (B : BinOracle)
    (r : ρ) (f : String) (h : stagedGuard (O.status r f) = true) :
    (resetOne O B r f).1 = O.unstage r f ∧
    (resetOne O B r f).2 =
      [Event.queryStatus f (O.status r f), Event.unstageEv f,
       Event.queryStatus f (O.status (O.unstage r f) f)] ++
      (if copyBackCond B f (O.status (O.unstage r f) f) then
        [Event.copyFile (B.getBinstoreFilename f) f]
       else []) ∧
    copyBackCond B f (O.status (O.unstage r f) f) =
      (B.has f &&
        (((O.status (O.unstage r f) f &&& STATUS_UNTRACKED) != 0) ||
         ((O.status (O.unstage r f) f &&& STATUS_MODIFIED) != 0))) := by
  refine ⟨?_, ?_, rfl⟩ <;>
    cases hc : copyBackCond B f (O.status (O.unstage r f) f) <;>
      simp [resetOne, h, hc]

/-- Repository oracle for the C3 witness: staged before the unstage,
modified afterwards. -/
def C3O : RepoOracle Nat :=
  { status := fun r _ => if r == 0 then STATUS_STAGED else STATUS_MODIFIED,
    unstage := fun r _ => r + 1,
    restore := fun r _ => r }

/-- Binstore oracle for the C3 witness. -/
def C3B : BinOracle :=
  { hasFile := fun _ => true, has := fun _ => true,
    getBinstoreFilename := fun f => "/binstore/" ++ f,
    digest := fun _ => "d3" }

/-- Witness for C3 at a concrete oracle with a staged path. -/
theorem C3_witness :
    stagedGuard (C3O.status 0 "g") = true ∧
    (resetOne C3O C3B 0 "g").1 = C3O.unstage 0 "g" :=
  ⟨by decide, (C3_reset_uses_fresh_status C3O C3B 0 "g" (by decide)).1⟩

/-- C6 (amended): for a path passing checkout_dashdash whose status has
the type-changed bit and whose content is not in the store, a
just-in-case copy named by the path and the content digest is written
under /tmp, copied from the resolved store path, strictly before the
Repository restore; the name carries no timestamp component. -/
theorem C6_backup_before_restore {ρ : Type} (O : RepoOracle ρ) (B : BinOracle)
    (r : ρ) (f : String)
    (h1 : stagedGuard (O.status r f) = false)
    (h2 : justincaseCond B f (O.status r f) = true) :
    (checkoutOne O B r f).2 =
      [Event.queryStatus f (O.status r f),
       Event.copyFile (B.getBinstoreFilename f)
         (justincaseName f (B.digest f)),
       Event.restoreEv f] ∧
    justincaseName f (B.digest f) =
      pathJoin "/tmp" (f ++ "." ++ B.digest f ++ ".justincase") := by
  have h2' := h2
  simp only [justincaseCond, Bool.and_eq_true] at h2'
  have hch := changed_of_typechanged (O.status r f) h2'.1
  refine ⟨?_, rfl⟩
  simp [checkoutOne, h1, hch, h2]

/-- Repository oracle for C6: the path carries only the type-changed
bit. -/
def C6O : RepoOracle Nat :=
  { status := fun _ _ => STATUS_TYPECHANGED,
    unstage := fun r _ => r,
    restore := fun r _ => r + 1 }

/-- Binstore oracle for C6: the content digest is absent from the
store. -/
def C6B : BinOracle :=
  { hasFile := fun _ => false, has := fun _ => false,
    getBinstoreFilename := fun f => "/binstore/" ++ f,
    digest := fun _ => "d6" }

/-- Witness for C6 at a concrete type-changed, non-member path. -/
theorem C6_witness :
    stagedGuard (C6O.status 0 "g") = false ∧
    justincaseCond C6B "g" (C6O.status 0 "g") = true ∧
    (checkoutOne C6O C6B 0 "g").2 =
      [Event.queryStatus "g" (C6O.status 0 "g"),
       Event.copyFile (C6B.getBinstoreFilename "g")
         (justincaseName "g" (C6B.digest "g")),
       Event.restoreEv "g"] :=
  ⟨by decide, by decide,
   (C6_backup_before_restore C6O C6B 0 "g" (by decide) (by decide)).1⟩

/-- C6 counterexample to the claim as stated: at a concrete type-changed
path whose digest is not in the store, the backup destination is exactly
the string /tmp/g.d6.justincase, fully determined by the path and the
digest; no timestamp appears anywhere in the name, so the saved copy is
not timestamped. -/
theorem C6_counterexample :
    (checkoutOne C6O C6B 0 "g").2 =
      [Event.queryStatus "g" 8,
       Event.copyFile "/binstore/g" "/tmp/g.d6.justincase",
       Event.restoreEv "g"] := by decide

/-- C1 (amended): on a path that is already a binstore link
(is_binstore_link holds), add never inserts into the store and never
recurses; when additionally the path exists and its content sniffs as
binary (true of every link insert creates, since only binary files are
inserted and stored objects are immutable), add is a complete no-op: the
trace is the progress print alone, with no store insertion and no
Repository staging. -/
theorem C1_add_noop_on_store_link (os : OsOracle) (U : UtilsOracle) (B : BinOracle)
    (cfg : BinstoreCfg) (f : String)
    (hlink : is_binstore_link os B cfg f = true) :
    Event.binstoreAddFile f ∉ addOne os U B cfg f ∧
    Event.recurseDir f ∉ addOne os U B cfg f ∧
    (os.pathExists f = true → U.isFileBinary f = true →
      addOne os U B cfg f = [Event.printMsg ("\t" ++ f)]) := by
  have hlink' := hlink
  rw [is_binstore_link_eq] at hlink'
  simp only [Bool.and_eq_true] at hlink'
  obtain ⟨h1, _h2, h3⟩ := hlink'
  cases hex : os.pathExists f <;> cases hbin : U.isFileBinary f <;>
    simp [addOne, hex, hbin, h1, h3, hlink]

/-- Filesystem oracle for C1: the path is a symlink into the store. -/
def C1os : OsOracle :=
  { pathExists := fun _ => true, islink := fun _ => true,
    readlink := fun _ => "/bs/d1", isdir := fun _ => false }

/-- Utils oracle for C1: content sniffs as binary. -/
def C1U : UtilsOracle :=
  { isFileBinary := fun _ => true, md5file := fun _ => "d1" }

/-- Binstore oracle for C1: the link target is a store member. -/
def C1B : BinOracle :=
  { hasFile := fun s => s == "/bs/d1", has := fun _ => true,
    getBinstoreFilename := fun _ => "/bs/d1", digest := fun _ => "d1" }

/-- Store configuration for C1. -/
def C1cfg : BinstoreCfg :=
  { path := "/bs", localpath := "/bs" }

/-- Utils oracle for the C1 counterexample: content sniffs as
non-binary. -/
def C1xU : UtilsOracle :=
  { isFileBinary := fun _ => false, md5file := fun _ => "d1" }

/-- Witness for C1 at a concrete correctly tracked binstore link. -/
theorem C1_witness :
    is_binstore_link C1os C1B C1cfg "f" = true ∧
    addOne C1os C1U C1B C1cfg "f" = [Event.printMsg ("\t" ++ "f")] :=
  ⟨by decide,
   (C1_add_noop_on_store_link C1os C1U C1B C1cfg "f" (by decide)).2.2 rfl rfl⟩

/-- C1 counterexample to the claim as stated: a path for which
is_binstore_link holds but whose linked content sniffs as non-binary is
re-staged with the Repository by add (the non-binary branch of the loop
fires before the is_binstore_link branch), so under the precondition
is_binstore_link alone a second add is not a no-op. -/
theorem C1_counterexample :
    is_binstore_link C1os C1B C1cfg "f" = true ∧
    Event.repoAdd "f" ∈ addOne C1os C1xU C1B C1cfg "f" := by
  refine ⟨by decide, ?_⟩
  decide

/-- Filesystem oracle for C4: the path is a symlink to a target outside
the store. -/
def C4os : OsOracle :=
  { pathExists := fun _ => true, islink := fun _ => true,
    readlink := fun _ => "/elsewhere/t", isdir := fun _ => false }

/-- Utils oracle for C4. -/
def C4U : UtilsOracle :=
  { isFileBinary := fun _ => true, md5file := fun _ => "d4" }

/-- Binstore oracle for C4: no path is a store member. -/
def C4B : BinOracle :=
  { hasFile := fun _ => false, has := fun _ => false,
    getBinstoreFilename := fun f => f, digest := fun _ => "d4" }

/-- Store configuration for C4. -/
def C4cfg : BinstoreCfg :=
  { path := "/bs4", localpath := "/bs4" }

/-- C4: on an existing symlink whose target is not a store member, add
stops without recursing and without inserting, as the claim says, but it
only prints the marker islink: DO_GIT_ADD and never hands the path to the
Repository add operation: the branch is an unimplemented stub, although
the comment above it says the file can just be added and the other
non-binary branch really calls gitrepo.add. -/
theorem C4_plain_symlink_only_prints :
    addOne C4os C4U C4B C4cfg "f" =
      [Event.printMsg ("\t" ++ "f"), Event.printMsg "islink: DO_GIT_ADD"] ∧
    Event.repoAdd "f" ∉ addOne C4os C4U C4B C4cfg "f" ∧
    Event.binstoreAddFile "f" ∉ addOne C4os C4U C4B C4cfg "f" ∧
    Event.recurseDir "f" ∉ addOne C4os C4U C4B C4cfg "f" := by
  refine ⟨by decide, ?_, ?_, ?_⟩ <;> decide

/-- C7 (amended): insert computes the digest of the file bytes, builds
the target name localAlias/Digest (the repository-private .git/binstore
alias of the store root, not the configured store root string), and
applies exactly move, link, chmod read-only, stage, in that order; the
chmod permissions carry no write bit for owner, group or other. -/
theorem C7_insert_pipeline (U : UtilsOracle) (cfg : BinstoreCfg) (f : String) :
    add_file U cfg f =
      [Event.moveFile f (pathJoin cfg.localpath (U.md5file f)),
       Event.linkToFile f (pathJoin cfg.localpath (U.md5file f)),
       Event.chmodEv binstorePerms (pathJoin cfg.localpath (U.md5file f)),
       Event.repoAdd f] ∧
    binstorePerms &&& (S_IWUSR ||| S_IWGRP ||| S_IWOTH) = 0 ∧
    binstorePerms = S_IRUSR ||| S_IRGRP ||| S_IROTH :=
  ⟨rfl, by decide, rfl⟩

/-- Repository for the C7 counterexample, initialised through
FilesystemBinstore so the configuration is reachable. -/
def C7r : Repo0 :=
  { path := "/r", reponame := "repo",
    config := { binstorePath := none, binstoreBase := some "/base" } }

/-- Utils oracle for the C7 counterexample. -/
def C7U : UtilsOracle :=
  { isFileBinary := fun _ => true, md5file := fun _ => "d7" }

/-- C7 counterexample to the claim as stated: after initialisation the
store root is /base/repo, yet insert moves the file to
/r/.git/binstore/d7, built from the local alias, which differs from the
storeRoot/Digest name /base/repo/d7. -/
theorem C7_counterexample :
    filesystemBinstoreMk C7r =
      Except.ok ({ path := "/base/repo", localpath := "/r/.git/binstore" },
        [Event.mkdirEv "/base/repo",
         Event.linkToFile "/r/.git/binstore" "/base/repo",
         Event.configSet "binstore" "path" "/base/repo"]) ∧
    (add_file C7U { path := "/base/repo", localpath := "/r/.git/binstore" } "f").head? =
      some (Event.moveFile "f" "/r/.git/binstore/d7") ∧
    "/r/.git/binstore/d7" ≠ pathJoin "/base/repo" "d7" := by
  refine ⟨by rfl, by rfl, ?_⟩
  decide

/-- C5 (amended): a command name outside the parser choices fails at
argument parsing, with a usage error rather than UnknownCommandError,
before any event at all; the parser-accepted command edit has no GitBin
handler and fails in dispatch_command with UnknownCommandError, but only
after the store construction step of main has run. -/
theorem C5_unknown_command (r : Repo0) (c : String) :
    (parserChoices.contains c = false →
      runMain r c =
        ([], some (GBError.usageError ("argument command: invalid choice: " ++ c)))) ∧
    parserChoices.contains "edit" = true ∧
    dispatchCommand "edit" =
      some (GBError.unknownCommand "The command edit is not known to git-bin") := by
  refine ⟨?_, by decide, by decide⟩
  intro h
  have h' : c ∉ parserChoices := by simpa using h
  simp [runMain, h']

/-- Repository for the C5 counterexample and witness: unconfigured store
path with a configured base, so construction mutates. -/
def C5r : Repo0 :=
  { path := "/r", reponame := "repo",
    config := { binstorePath := none, binstoreBase := some "/base" } }

/-- Witness for C5 at a concrete command name outside the parser
choices. -/
theorem C5_witness :
    parserChoices.contains "frobnicate" = false ∧
    runMain C5r "frobnicate" =
      ([], some (GBError.usageError
        ("argument command: invalid choice: " ++ "frobnicate"))) :=
  ⟨by decide, (C5_unknown_command C5r "frobnicate").1 (by decide)⟩

/-- C5 counterexample to the claim as stated: invoking the program with
the command edit against an unconfigured repository fails with
UnknownCommandError, but the store initialisation of main has already
created the store directory, the alias link and the configuration entry,
so filesystem mutation precedes the failure. -/
theorem C5_counterexample :
    (runMain C5r "edit").2 =
      some (GBError.unknownCommand "The command edit is not known to git-bin") ∧
    (runMain C5r "edit").1.any isMutation = true ∧
    (runMain C5r "edit").1 =
      [Event.mkdirEv "/base/repo",
       Event.linkToFile "/r/.git/binstore" "/base/repo",
       Event.configSet "binstore" "path" "/base/repo"] := by
  refine ⟨by decide, by decide, ?_⟩
  decide

/-- C10: the command-line parser accepts the command name edit as part of
its closed command set, yet no GitBin attribute is named edit, so
dispatching edit raises UnknownCommandException: the parser accepted set
and the dispatchable set differ on this member. -/
theorem C10_edit_dispatch_gap :
    parserChoices.contains "edit" = true ∧
    gitbinAttrs.contains "edit" = false ∧
    dispatchCommand "edit" =
      some (GBError.unknownCommand "The command edit is not known to git-bin") := by
  refine ⟨by decide, by decide, ?_⟩
  decide

end GitBinSpec
